import Mathlib

/-!
Verification of the InfinitePlexLibrary webhook service.

This file is a shallow embedding of the TypeScript sources:
  - src/index.ts            (webhook endpoints, event dispatcher, availability pollers)
  - src/systems/plex.ts     (media-server refresh / description calls)
Collaborator modules that live outside src/ (systems/radarr.ts, systems/sonarr.ts,
systems/tautulli.ts, utils.ts, config.ts) are modelled at their interface
boundary: filesystem and HTTP side effects become entries of an explicit
`Effect` trace, and status lookups become oracle functions supplied as
arguments.  Exceptions thrown by the dispatcher are modelled as a Bool flag
(`threw`) alongside the effect trace produced before the throw.
-/

/-! ## Node `path` (posix) helpers used by index.ts -/

/-- Model of Node `path.basename` (posix): drop trailing separators, then take
the segment after the last separator. -/
def basename (p : String) : String :=
  let rev := p.toList.reverse.dropWhile (fun c => c = '/')
  String.mk ((rev.takeWhile (fun c => c != '/')).reverse)

/-- Model of Node `path.join` on two segments.  Dot-segment normalization is
not modelled; every path the dispatcher joins is already normalized. -/
def pathJoin (a b : String) : String :=
  if a = "" then b
  else if b = "" then a
  else if a.toList.getLast? = some '/' then a ++ b
  else a ++ "/" ++ b

/-! ## Data model -/

/-- `event.movie` payload fields read by index.ts. -/
structure MoviePayload where
  title : String
  folderPath : String
  tmdbId : Nat
  deriving DecidableEq, Repr

/-- `event.series` payload fields read by index.ts. -/
structure SeriesPayload where
  title : String
  path : String
  deriving DecidableEq, Repr

/-- One entry of `event.episodes`. -/
structure EpisodeRef where
  seasonNumber : Nat
  episodeNumber : Nat
  deriving DecidableEq, Repr

/-- A webhook request body as read by the two endpoints.  Optional fields are
`Option`; a `none` mirrors the JavaScript field being `undefined`.  `release`
holds `event.release.title` when the `release` object is present. -/
structure WebhookEvent where
  eventType : Option String
  movie : Option MoviePayload
  series : Option SeriesPayload
  episodes : Option (List EpisodeRef)
  release : Option String
  message : Option String
  deriving DecidableEq, Repr

/-- The configuration surface read by index.ts (config.ts is not under src/;
fields are opaque strings per the configuration section of the spec). -/
structure Config where
  MOVIE_FOLDER_DUMMY : String
  PLEX_MOVIE_FOLDER : String
  DUMMY_FILE_LOCATION : String
  PLEX_MOVIES_LIBRARY_ID : String
  SERIES_FOLDER_DUMMY : String
  PLEX_SERIES_LIBRARY_ID : String
  RADARR_4K_URL : Option String
  RADARR_4K_API_KEY : String
  RADARR_4K_MOVIE_FOLDER : String
  RADARR_4K_QUALITY_PROFILE_ID : String
  PLEX_URL : String
  PLEX_LIBRARY_ID : String
  PLEX_TOKEN : String
  deriving DecidableEq, Repr

/-- JavaScript truthiness of an optional string (`undefined` and `""` are
falsy), used for `if (config.RADARR_4K_URL)`. -/
def strOptTruthy : Option String → Bool
  | none => false
  | some s => !(s == "")

/-- Snapshot returned by the secondary ("4K") backend existence check,
`checkMovieInRadarr` (systems/radarr.ts, outside src/, modelled at its
interface boundary per the spec's Acquisition Client section). -/
structure MovieDetails4K where
  id : Nat
  hasFile : Bool
  movieFileRelativePath : Option String
  deriving DecidableEq, Repr

/-- Filesystem and outbound-collaborator side effects issued by the event
dispatcher, in program order.  Constructor names follow the functions
index.ts calls.  `notifyPlexFolderRefresh` records both arguments of the
call site in index.ts (the callee's handling of them is modelled separately
from src/systems/plex.ts). -/
inductive Effect where
  | ensureDirectoryExists (dir : String)
  | createDummyFile (src dst : String)
  | createSymlink (target linkPath : String)
  | notifyPlexFolderRefresh (folderPath libraryId : String)
  | cleanUpDummyFile (folder : String)
  | removeDummyFolder (folder : String)
  | checkMovieInRadarr4K (tmdbId : Nat)
  | searchMovieInRadarr4K (movieId : Nat)
  | addMovieToRadarr4K (tmdbId : Nat)
  deriving DecidableEq, Repr

/-! ## Event dispatcher (`handleEvent` in src/index.ts) -/

/-- The optional secondary-backend block of the Download (movie) case.
`check4K` is the oracle for `checkMovieInRadarr(movie.tmdbId, ...)`:
it returns the `[exists, movieDetails]` pair. -/
def download4KEffects (cfg : Config) (check4K : Nat → Bool × MovieDetails4K)
    (m : MoviePayload) : List Effect :=
  if strOptTruthy cfg.RADARR_4K_URL then
    let r := check4K m.tmdbId
    Effect.checkMovieInRadarr4K m.tmdbId ::
      (if r.1 && (!r.2.hasFile || (r.2.movieFileRelativePath == some "dummy.mp4"))
       then [Effect.searchMovieInRadarr4K r.2.id]
       else if !r.1 then [Effect.addMovieToRadarr4K m.tmdbId]
       else [])
  else []

/-- `handleEvent` from src/index.ts.  Returns the effect trace in program order
and a flag that is `true` when the handler throws (a TypeError from reading a
property of `undefined`); the trace holds the effects issued before the throw.
Branches that only log produce no effect. -/
def handleEvent (cfg : Config) (check4K : Nat → Bool × MovieDetails4K)
    (ev : WebhookEvent) : List Effect × Bool :=
  match ev.eventType with
  | some "MovieAdded" =>
    match ev.movie with
    | none => ([], true)
    | some m =>
      let movieFolderDummy := pathJoin cfg.MOVIE_FOLDER_DUMMY (basename m.folderPath)
      let plexFolder := pathJoin cfg.PLEX_MOVIE_FOLDER (basename m.folderPath)
      let dummyLink := pathJoin movieFolderDummy "dummy.mp4"
      ([ Effect.ensureDirectoryExists movieFolderDummy,
         Effect.createDummyFile cfg.DUMMY_FILE_LOCATION dummyLink,
         Effect.createSymlink dummyLink plexFolder,
         Effect.notifyPlexFolderRefresh m.folderPath cfg.PLEX_MOVIES_LIBRARY_ID ], false)
  | some "Download" =>
    match ev.movie with
    | some m =>
      let movieFolderDummy := pathJoin cfg.MOVIE_FOLDER_DUMMY (basename m.folderPath)
      (Effect.cleanUpDummyFile m.folderPath ::
         Effect.removeDummyFolder movieFolderDummy ::
         (download4KEffects cfg check4K m ++
          [Effect.notifyPlexFolderRefresh m.folderPath cfg.PLEX_MOVIES_LIBRARY_ID]), false)
    | none =>
      match ev.series with
      | some s =>
        match ev.episodes with
        | none => ([], true)
        | some [] => ([], true)
        | some (e :: _) =>
          let dummySeasonFolder :=
            pathJoin (pathJoin cfg.SERIES_FOLDER_DUMMY (basename s.path))
              ("Season " ++ toString e.seasonNumber)
          ([ Effect.cleanUpDummyFile dummySeasonFolder,
             Effect.removeDummyFolder dummySeasonFolder,
             Effect.notifyPlexFolderRefresh s.path cfg.PLEX_SERIES_LIBRARY_ID ], false)
      | none => ([], false)
  | some "Grab" =>
    match ev.movie with
    | some _ =>
      (match ev.release with
       | none => ([], true)
       | some _ => ([], false))
    | none =>
      match ev.series with
      | some _ =>
        (match ev.episodes with
         | some (_ :: _) => ([], false)
         | _ => ([], true))
      | none => ([], false)
  | some "Rename" => ([], false)
  | some "MovieDelete" =>
    (match ev.movie with
     | some _ => ([], false)
     | none => ([], true))
  | some "SeriesDelete" =>
    (match ev.series with
     | some _ => ([], false)
     | none => ([], true))
  | some "HealthIssue" => ([], false)
  | some "Test" => ([], false)
  | _ => ([], false)

/-! ## Webhook endpoints (src/index.ts) -/

/-- An HTTP response as the endpoints build it. -/
structure WebhookResponse where
  status : Nat
  body : String
  deriving DecidableEq, Repr

/-- JavaScript truthiness of `event.eventType` for the `!event.eventType`
guard. -/
def eventTypeTruthy (ev : WebhookEvent) : Bool :=
  match ev.eventType with
  | none => false
  | some s => !(s == "")

/-- `POST /radarr-webhook`: validate, delegate to `handleEvent`, map a throw
to 500.  `body = none` models an absent request body. -/
def radarrWebhook (cfg : Config) (check4K : Nat → Bool × MovieDetails4K)
    (body : Option WebhookEvent) : WebhookResponse × List Effect :=
  match body with
  | none => (⟨400, "Invalid event: missing eventType."⟩, [])
  | some ev =>
    if !(eventTypeTruthy ev) then (⟨400, "Invalid event: missing eventType."⟩, [])
    else
      let r := handleEvent cfg check4K ev
      if r.2 then (⟨500, "Internal Server Error"⟩, r.1)
      else (⟨200, "Webhook processed successfully."⟩, r.1)

/-- `POST /sonarr-webhook`: textually the same handler as the radarr endpoint
in src/index.ts. -/
def sonarrWebhook (cfg : Config) (check4K : Nat → Bool × MovieDetails4K)
    (body : Option WebhookEvent) : WebhookResponse × List Effect :=
  match body with
  | none => (⟨400, "Invalid event: missing eventType."⟩, [])
  | some ev =>
    if !(eventTypeTruthy ev) then (⟨400, "Invalid event: missing eventType."⟩, [])
    else
      let r := handleEvent cfg check4K ev
      if r.2 then (⟨500, "Internal Server Error"⟩, r.1)
      else (⟨200, "Webhook processed successfully."⟩, r.1)

/-! ## Availability pollers (src/index.ts) -/

/-- Terminal state of a poller run. -/
inductive PollResult where
  | Satisfied
  | TimedOut
  deriving DecidableEq, Repr

/-- The fields of a `getMovieStatus` snapshot read by `monitorAvailability`.
`relativePath` is `movie.movieFile?.relativePath`: `none` when `movieFile`
is absent. -/
structure MovieStatus where
  hasFile : Bool
  relativePath : Option String
  deriving DecidableEq, Repr

/-- The movie-mode satisfaction test of `monitorAvailability`:
`movie && movie.hasFile && movie.movieFile?.relativePath !== "dummy.mp4"`.
An absent `movieFile` (`none`) passes the inequality, as `undefined` does
in JavaScript. -/
def movieSatisfied : Option MovieStatus → Bool
  | none => false
  | some s => s.hasFile && !(s.relativePath == some "dummy.mp4")

/-- Poll cadence of both pollers: `setInterval(..., 5000)`. -/
def pollIntervalMs : Nat := 5000

/-- Attempt ceiling of both pollers: `const maxRetries = 60`. -/
def pollMaxRetries : Nat := 60

/-- Outcome of a movie-mode poller run: terminal state, number of ticks
executed, and the arguments of the `terminateStreamByFile` calls issued. -/
structure MonitorOutcome where
  result : PollResult
  ticks : Nat
  stopCalls : List String
  deriving DecidableEq, Repr

/-- One-tick-at-a-time unfolding of the `setInterval` body of
`monitorAvailability`.  `status t` is the `getMovieStatus` snapshot the tick
with attempt counter `t` observes (the `isMovieDownloading` lookup only logs
and is omitted).  The satisfaction branch is checked before the timeout
branch, as in the source, where a tick satisfying both resolves once with
the satisfaction branch's effects.  `fuel` bounds the recursion; callers pass
`maxRetries - attempts`, making the fuel-exhausted base case unreachable. -/
def monitorLoop (status : Nat → Option MovieStatus) (originalFilePath : String)
    (maxRetries attempts fuel : Nat) : MonitorOutcome :=
  match fuel with
  | 0 => ⟨PollResult.TimedOut, attempts, []⟩
  | Nat.succ f =>
    if movieSatisfied (status (attempts + 1)) then
      ⟨PollResult.Satisfied, attempts + 1, [originalFilePath]⟩
    else if maxRetries ≤ attempts + 1 then
      ⟨PollResult.TimedOut, attempts + 1, []⟩
    else monitorLoop status originalFilePath maxRetries (attempts + 1) f

/-- `monitorAvailability` from src/index.ts, as a function of the status
oracle and the `originalFilePath` argument. -/
def monitorAvailability (status : Nat → Option MovieStatus)
    (originalFilePath : String) : MonitorOutcome :=
  monitorLoop status originalFilePath pollMaxRetries 0 pollMaxRetries

/-- One entry of a `getEpisodesBySeriesId` listing, with the fields the season
poller reads.  `episodeFileRelativePath` is `ep.episodeFile.relativePath`
when `episodeFile` is present. -/
structure EpisodeStatus where
  hasFile : Bool
  episodeFileRelativePath : Option String
  deriving DecidableEq, Repr

/-- The filter predicate of `monitorSeasonAvailability`:
`!ep.hasFile || (ep.episodeFile && ep.episodeFile.relativePath === "dummy.mp4")`. -/
def episodeUnavailable (ep : EpisodeStatus) : Bool :=
  !ep.hasFile || (ep.episodeFileRelativePath == some "dummy.mp4")

/-- `unavailableEpisodes.length` for one tick's episode listing. -/
def pendingCount (eps : List EpisodeStatus) : Nat :=
  (eps.filter episodeUnavailable).length

/-- The third argument index.ts passes to `updatePlexDescription` while
episodes are pending. -/
def waitingMessage (n : Nat) : String :=
  "Waiting for " ++ toString n ++ " episodes..."

/-- Outcome of a season-mode poller run: terminal state, ticks executed, and
the `updatePlexDescription` status lines issued, in order. -/
structure SeasonOutcome where
  result : PollResult
  ticks : Nat
  descriptionUpdates : List String
  deriving DecidableEq, Repr

/-- One-tick-at-a-time unfolding of the `setInterval` body of
`monitorSeasonAvailability`.  `episodes t` is the listing the tick with
attempt counter `t` observes.  A tick with no pending episode resolves with
no description update; otherwise the update is issued first and the timeout
check runs after it, so a timed-out final tick still carries its update. -/
def seasonLoop (episodes : Nat → List EpisodeStatus)
    (maxRetries attempts fuel : Nat) : SeasonOutcome :=
  match fuel with
  | 0 => ⟨PollResult.TimedOut, attempts, []⟩
  | Nat.succ f =>
    if pendingCount (episodes (attempts + 1)) = 0 then
      ⟨PollResult.Satisfied, attempts + 1, []⟩
    else if maxRetries ≤ attempts + 1 then
      ⟨PollResult.TimedOut, attempts + 1, [waitingMessage (pendingCount (episodes (attempts + 1)))]⟩
    else
      let rest := seasonLoop episodes maxRetries (attempts + 1) f
      ⟨rest.result, rest.ticks,
        waitingMessage (pendingCount (episodes (attempts + 1))) :: rest.descriptionUpdates⟩

/-- `monitorSeasonAvailability` from src/index.ts, as a function of the
episode-listing oracle. -/
def monitorSeasonAvailability (episodes : Nat → List EpisodeStatus) : SeasonOutcome :=
  seasonLoop episodes pollMaxRetries 0 pollMaxRetries

/-! ## Library notifier (src/systems/plex.ts) -/

/-- Hex digit (uppercase) for percent-encoding. -/
def hexDigit (n : Nat) : Char :=
  if n < 10 then Char.ofNat (48 + n) else Char.ofNat (55 + n)

/-- `%XX` encoding of one byte. -/
def percentEncodeByte (b : Nat) : String :=
  String.mk ['%', hexDigit (b / 16), hexDigit (b % 16)]

/-- UTF-8 encoding of one character, as a list of byte values. -/
def utf8Bytes (c : Char) : List Nat :=
  let n := c.toNat
  if n < 128 then [n]
  else if n < 2048 then [192 + n / 64, 128 + n % 64]
  else if n < 65536 then [224 + n / 4096, 128 + (n / 64) % 64, 128 + n % 64]
  else [240 + n / 262144, 128 + (n / 4096) % 64, 128 + (n / 64) % 64, 128 + n % 64]

/-- Characters `encodeURIComponent` leaves unescaped. -/
def uriUnreserved (c : Char) : Bool :=
  c.isAlphanum || c = '-' || c = '_' || c = '.' || c = '!' || c = '~' ||
    c = '*' || c = Char.ofNat 39 || c = '(' || c = ')'

/-- Model of JavaScript `encodeURIComponent`: unreserved characters pass
through, everything else is percent-encoded byte-wise (UTF-8). -/
def encodeURIComponent (s : String) : String :=
  s.data.foldl
    (fun acc c =>
      if uriUnreserved c then acc.push c
      else acc ++ String.join ((utf8Bytes c).map percentEncodeByte))
    ""

/-- The URL `notifyPlexFolderRefresh` in src/systems/plex.ts issues a GET to.
The function takes only `folderPath`; the section id in the URL is always
`config.PLEX_LIBRARY_ID`. -/
def notifyPlexFolderRefreshUrl (cfg : Config) (folderPath : String) : String :=
  cfg.PLEX_URL ++ "/library/sections/" ++ cfg.PLEX_LIBRARY_ID ++
    "/refresh?X-Plex-Token=" ++ cfg.PLEX_TOKEN ++ "&path=" ++
    encodeURIComponent folderPath

/-- The call-site semantics of `notifyPlexFolderRefresh(folderPath, libraryId)`
as index.ts invokes it: in JavaScript the extra `libraryId` argument is bound
to no parameter and ignored by the unary callee. -/
def notifyPlexFolderRefreshCallUrl (cfg : Config) (folderPath libraryId : String) : String :=
  notifyPlexFolderRefreshUrl cfg folderPath

/-- Modelled from the spec: `rescanFolder(folderPath, libraryId)` as the spec
describes it — the issued URL is
`mediaServerUrl/library/sections/libraryId/refresh` with the `path` query
parameter set to `folderPath`, the section id being the caller-supplied
`libraryId`.  This definition follows the claim's words and is compared with
`notifyPlexFolderRefreshCallUrl`, the embedding of the code. -/
def rescanFolderClaimUrl (cfg : Config) (folderPath libraryId : String) : String :=
  cfg.PLEX_URL ++ "/library/sections/" ++ libraryId ++
    "/refresh?X-Plex-Token=" ++ cfg.PLEX_TOKEN ++ "&path=" ++
    encodeURIComponent folderPath

/-! ## Concrete fixtures used by witnesses -/

/-- A concrete configuration. -/
def cfgEx : Config :=
  { MOVIE_FOLDER_DUMMY := "/dummy"
    PLEX_MOVIE_FOLDER := "/plex/movies"
    DUMMY_FILE_LOCATION := "/opt/dummy.mp4"
    PLEX_MOVIES_LIBRARY_ID := "2"
    SERIES_FOLDER_DUMMY := "/dummy-series"
    PLEX_SERIES_LIBRARY_ID := "3"
    RADARR_4K_URL := none
    RADARR_4K_API_KEY := ""
    RADARR_4K_MOVIE_FOLDER := ""
    RADARR_4K_QUALITY_PROFILE_ID := ""
    PLEX_URL := "http://plex:32400"
    PLEX_LIBRARY_ID := "1"
    PLEX_TOKEN := "token" }

/-- A concrete 4K-check oracle: movie absent from the secondary backend. -/
def check4KEx : Nat → Bool × MovieDetails4K :=
  fun _ => (false, ⟨0, false, none⟩)

/-- The spec's end-to-end example movie payload. -/
def inceptionMovie : MoviePayload :=
  { title := "Inception", folderPath := "/media/Inception (2010)", tmdbId := 27205 }

/-- A `MovieAdded` event carrying the example movie. -/
def movieAddedEv : WebhookEvent :=
  { eventType := some "MovieAdded", movie := some inceptionMovie,
    series := none, episodes := none, release := none, message := none }

/-- A `Download` event carrying the example movie. -/
def downloadMovieEv : WebhookEvent :=
  { eventType := some "Download", movie := some inceptionMovie,
    series := none, episodes := none, release := none, message := none }

/-- A `Download` event with a series payload but an empty episode list. -/
def downloadSeriesNoEpisodesEv : WebhookEvent :=
  { eventType := some "Download", movie := none,
    series := some { title := "Dark", path := "/media-series/Dark" },
    episodes := some [], release := none, message := none }

/-! ## C1 -/

/-- Claim C1: a webhook request whose body is absent, or whose body lacks an
`eventType` field, gets a 400 plain-text response from both endpoints, and no
filesystem or outbound-collaborator effect is issued. -/
theorem missing_eventType_returns_400 (cfg : Config)
    (check4K : Nat → Bool × MovieDetails4K) (body : Option WebhookEvent)
    (h : body = none ∨ ∃ ev, body = some ev ∧ ev.eventType = none) :
    radarrWebhook cfg check4K body = (⟨400, "Invalid event: missing eventType."⟩, []) ∧
    sonarrWebhook cfg check4K body = (⟨400, "Invalid event: missing eventType."⟩, []) := by
  rcases h with h | ⟨ev, hb, ht⟩
  · subst h
    exact ⟨rfl, rfl⟩
  · subst hb
    constructor <;> simp [radarrWebhook, sonarrWebhook, eventTypeTruthy, ht]

/-- Witness for C1 at the concrete fixtures: an absent body and a body whose
`eventType` is missing. -/
theorem missing_eventType_returns_400_witness :
    radarrWebhook cfgEx check4KEx none = (⟨400, "Invalid event: missing eventType."⟩, []) ∧
    sonarrWebhook cfgEx check4KEx
      (some { eventType := none, movie := none, series := none, episodes := none,
              release := none, message := none }) =
      (⟨400, "Invalid event: missing eventType."⟩, []) :=
  ⟨(missing_eventType_returns_400 cfgEx check4KEx none (Or.inl rfl)).1,
   (missing_eventType_returns_400 cfgEx check4KEx
      (some { eventType := none, movie := none, series := none, episodes := none,
              release := none, message := none })
      (Or.inr ⟨_, rfl, rfl⟩)).2⟩

/-! ## C2 -/

/-- Claim C2: handling a `MovieAdded` event with movie folder path `P` issues,
in this order and nothing else: directory creation for
`join(dummyRoot, basename P)`, dummy-file creation at
`join(dummyRoot, basename P, "dummy.mp4")` from the fixed template, symlink
creation at `join(libraryRoot, basename P)` targeting that dummy file, and
exactly one rescan call for `P`. -/
theorem movieAdded_effect_trace (cfg : Config)
    (check4K : Nat → Bool × MovieDetails4K) (ev : WebhookEvent) (m : MoviePayload)
    (hty : ev.eventType = some "MovieAdded") (hm : ev.movie = some m) :
    handleEvent cfg check4K ev =
      ([ Effect.ensureDirectoryExists (pathJoin cfg.MOVIE_FOLDER_DUMMY (basename m.folderPath)),
         Effect.createDummyFile cfg.DUMMY_FILE_LOCATION
           (pathJoin (pathJoin cfg.MOVIE_FOLDER_DUMMY (basename m.folderPath)) "dummy.mp4"),
         Effect.createSymlink
           (pathJoin (pathJoin cfg.MOVIE_FOLDER_DUMMY (basename m.folderPath)) "dummy.mp4")
           (pathJoin cfg.PLEX_MOVIE_FOLDER (basename m.folderPath)),
         Effect.notifyPlexFolderRefresh m.folderPath cfg.PLEX_MOVIES_LIBRARY_ID ], false) := by
  simp [handleEvent, hty, hm]

/-- Witness for C2: the spec's end-to-end example, `movie.folderPath =
"/media/Inception (2010)"`, evaluated at the concrete fixtures. -/
theorem movieAdded_effect_trace_witness :
    handleEvent cfgEx check4KEx movieAddedEv =
      ([ Effect.ensureDirectoryExists "/dummy/Inception (2010)",
         Effect.createDummyFile "/opt/dummy.mp4" "/dummy/Inception (2010)/dummy.mp4",
         Effect.createSymlink "/dummy/Inception (2010)/dummy.mp4"
           "/plex/movies/Inception (2010)",
         Effect.notifyPlexFolderRefresh "/media/Inception (2010)" "2" ], false) := by
  have h := movieAdded_effect_trace cfgEx check4KEx movieAddedEv inceptionMovie rfl rfl
  rw [h]
  decide

/-! ## C8 -/

/-- Claim C8: on every request body the two endpoints return the same response
and issue the same effect trace — they validate identically and delegate to
the same `handleEvent`. -/
theorem webhook_endpoints_equivalent (cfg : Config)
    (check4K : Nat → Bool × MovieDetails4K) (body : Option WebhookEvent) :
    radarrWebhook cfg check4K body = sonarrWebhook cfg check4K body := by
  rfl

/-! ## C9 -/

/-- Claim C9: a `Download` event with a `series` payload whose `episodes`
field is absent or empty makes `handleEvent` throw before any effect (it
reads `event.episodes[0].seasonNumber` unguarded), so no cleanup and no
rescan is issued and both endpoints answer 500. -/
theorem download_series_missing_episodes_throws (cfg : Config)
    (check4K : Nat → Bool × MovieDetails4K) (ev : WebhookEvent) (s : SeriesPayload)
    (hty : ev.eventType = some "Download") (hm : ev.movie = none)
    (hs : ev.series = some s) (he : ev.episodes = none ∨ ev.episodes = some []) :
    handleEvent cfg check4K ev = ([], true) ∧
    radarrWebhook cfg check4K (some ev) = (⟨500, "Internal Server Error"⟩, []) ∧
    sonarrWebhook cfg check4K (some ev) = (⟨500, "Internal Server Error"⟩, []) := by
  have hh : handleEvent cfg check4K ev = ([], true) := by
    rcases he with he | he <;> simp [handleEvent, hty, hm, hs, he]
  refine ⟨hh, ?_, ?_⟩ <;>
    simp [radarrWebhook, sonarrWebhook, eventTypeTruthy, hty, hh]

/-- Witness for C9: a concrete `Download` event whose episode list is empty. -/
theorem download_series_missing_episodes_throws_witness :
    handleEvent cfgEx check4KEx downloadSeriesNoEpisodesEv = ([], true) ∧
    radarrWebhook cfgEx check4KEx (some downloadSeriesNoEpisodesEv) =
      (⟨500, "Internal Server Error"⟩, []) ∧
    sonarrWebhook cfgEx check4KEx (some downloadSeriesNoEpisodesEv) =
      (⟨500, "Internal Server Error"⟩, []) :=
  download_series_missing_episodes_throws cfgEx check4KEx downloadSeriesNoEpisodesEv
    { title := "Dark", path := "/media-series/Dark" } rfl rfl rfl (Or.inr rfl)

/-! ## C6 -/

/-- Claim C6: handling a `Download` event with a movie payload never throws
and its effect trace starts with the placeholder dummy-file cleanup and the
dummy-folder removal, then whatever the optional secondary ("4K") backend
interaction produces, and always ends with the rescan call for the movie's
folder path — so remove-placeholder happens-before rescan, for every
configuration and every 4K-check outcome. -/
theorem download_movie_ends_with_rescan (cfg : Config)
    (check4K : Nat → Bool × MovieDetails4K) (ev : WebhookEvent) (m : MoviePayload)
    (hty : ev.eventType = some "Download") (hm : ev.movie = some m) :
    (handleEvent cfg check4K ev).2 = false ∧
    ∃ mid, (handleEvent cfg check4K ev).1 =
      Effect.cleanUpDummyFile m.folderPath ::
      Effect.removeDummyFolder (pathJoin cfg.MOVIE_FOLDER_DUMMY (basename m.folderPath)) ::
      (mid ++ [Effect.notifyPlexFolderRefresh m.folderPath cfg.PLEX_MOVIES_LIBRARY_ID]) := by
  refine ⟨?_, download4KEffects cfg check4K m, ?_⟩ <;> simp [handleEvent, hty, hm]

/-- Witness for C6: the concrete `Download` movie event at the concrete
fixtures. -/
theorem download_movie_ends_with_rescan_witness :
    (handleEvent cfgEx check4KEx downloadMovieEv).2 = false ∧
    ∃ mid, (handleEvent cfgEx check4KEx downloadMovieEv).1 =
      Effect.cleanUpDummyFile "/media/Inception (2010)" ::
      Effect.removeDummyFolder (pathJoin "/dummy" (basename "/media/Inception (2010)")) ::
      (mid ++ [Effect.notifyPlexFolderRefresh "/media/Inception (2010)" "2"]) :=
  download_movie_ends_with_rescan cfgEx check4KEx downloadMovieEv inceptionMovie rfl rfl

/-! ## C7 -/

/-- Claim C7 fails on the code: index.ts calls
`notifyPlexFolderRefresh(folderPath, libraryId)` with a per-library section
id, but the function in src/systems/plex.ts declares only the `folderPath`
parameter and always puts `config.PLEX_LIBRARY_ID` in the issued URL, so the
section id of the outbound GET is the configured global id, not the
caller-supplied argument.  At the concrete fixtures (`PLEX_LIBRARY_ID = "1"`,
caller passes `"2"`), the issued URL carries section `1` while the claim's
URL carries section `2`. -/
theorem plex_refresh_ignores_libraryId_argument :
    notifyPlexFolderRefreshCallUrl cfgEx "/media/Inception (2010)" "2" =
      "http://plex:32400/library/sections/1/refresh?X-Plex-Token=token&path=%2Fmedia%2FInception%20(2010)" ∧
    rescanFolderClaimUrl cfgEx "/media/Inception (2010)" "2" =
      "http://plex:32400/library/sections/2/refresh?X-Plex-Token=token&path=%2Fmedia%2FInception%20(2010)" ∧
    notifyPlexFolderRefreshCallUrl cfgEx "/media/Inception (2010)" "2" ≠
      rescanFolderClaimUrl cfgEx "/media/Inception (2010)" "2" := by
  refine ⟨?_, ?_, ?_⟩ <;> decide

/-! ## Movie-poller lemmas -/

/-- A movie-mode run whose status stream never satisfies ticks its full fuel
and times out with no stop call, provided the fuel does not overrun the
attempt ceiling. -/
theorem monitorLoop_never_satisfied (status : Nat → Option MovieStatus)
    (orig : String) (maxR : Nat)
    (h : ∀ t, movieSatisfied (status t) = false) :
    ∀ fuel attempts, attempts + fuel ≤ maxR →
      monitorLoop status orig maxR attempts fuel =
        ⟨PollResult.TimedOut, attempts + fuel, []⟩ := by
  intro fuel
  induction fuel with
  | zero =>
    intro attempts _
    simp [monitorLoop]
  | succ f ih =>
    intro attempts hle
    by_cases hm : maxR ≤ attempts + 1
    · have hf : f = 0 := by omega
      subst hf
      simp [monitorLoop, h, hm]
    · rw [monitorLoop]
      simp only [h, Bool.false_eq_true, if_false, hm, ite_false]
      rw [ih (attempts + 1) (by omega)]
      have harith : attempts + 1 + f = attempts + (f + 1) := by omega
      rw [harith]

/-- A movie-mode run that first satisfies at tick `k` (no earlier evaluated
tick satisfies, `k` within the ceiling and the fuel) ends at tick `k` in the
satisfied branch, issuing exactly the one stop-playback call. -/
theorem monitorLoop_first_satisfied_at (status : Nat → Option MovieStatus)
    (orig : String) (maxR k : Nat)
    (hk : movieSatisfied (status k) = true) (hkle : k ≤ maxR) :
    ∀ fuel attempts, attempts < k → k ≤ attempts + fuel →
      (∀ t, attempts < t → t < k → movieSatisfied (status t) = false) →
      monitorLoop status orig maxR attempts fuel =
        ⟨PollResult.Satisfied, k, [orig]⟩ := by
  intro fuel
  induction fuel with
  | zero =>
    intro attempts h1 h2 _
    omega
  | succ f ih =>
    intro attempts h1 h2 hbefore
    by_cases he : attempts + 1 = k
    · subst he
      simp [monitorLoop, hk]
    · have hlt : attempts + 1 < k := by omega
      have hs := hbefore (attempts + 1) (by omega) hlt
      have hm : ¬ (maxR ≤ attempts + 1) := by omega
      rw [monitorLoop]
      simp only [hs, Bool.false_eq_true, if_false, hm, ite_false]
      exact ih (attempts + 1) hlt (by omega) (fun t ht1 ht2 => hbefore t (by omega) ht2)

/-! ## C3 -/

/-- Claim C3: on a status sequence that never satisfies the movie-mode
condition, the poller runs exactly 60 ticks at its 5-second cadence, ends in
the terminal timed-out state, and issues zero stop-playback calls. -/
theorem monitor_never_satisfied_times_out (status : Nat → Option MovieStatus)
    (orig : String) (h : ∀ t, movieSatisfied (status t) = false) :
    pollIntervalMs = 5000 ∧
    monitorAvailability status orig = ⟨PollResult.TimedOut, 60, []⟩ := by
  refine ⟨rfl, ?_⟩
  have hrun := monitorLoop_never_satisfied status orig pollMaxRetries h 60 0 (by decide)
  simpa [monitorAvailability, pollMaxRetries] using hrun

/-- Witness for C3: a status stream that always reports no movie. -/
theorem monitor_never_satisfied_times_out_witness :
    pollIntervalMs = 5000 ∧
    monitorAvailability (fun _ => none) "/media/Inception (2010)/orig.mkv" =
      ⟨PollResult.TimedOut, 60, []⟩ :=
  monitor_never_satisfied_times_out (fun _ => none)
    "/media/Inception (2010)/orig.mkv" (fun _ => rfl)

/-! ## C4 -/

/-- Claim C4: in movie mode, when has-file stays false on ticks 1 through 59
and tick 60's status has has-file true with a relative path different from
the sentinel "dummy.mp4", the poller ends in the terminal satisfied state at
tick 60 and issues exactly one stop-playback call, on the original file
path. -/
theorem monitor_satisfied_tick60 (status : Nat → Option MovieStatus)
    (orig : String) (s60 : MovieStatus)
    (hbefore : ∀ t, 1 ≤ t → t ≤ 59 → ∀ s, status t = some s → s.hasFile = false)
    (h60 : status 60 = some s60) (hHas : s60.hasFile = true)
    (hrel : s60.relativePath ≠ some "dummy.mp4") :
    monitorAvailability status orig = ⟨PollResult.Satisfied, 60, [orig]⟩ := by
  have hk : movieSatisfied (status 60) = true := by
    rw [h60]
    simp [movieSatisfied, hHas, hrel]
  have hb : ∀ t, 0 < t → t < 60 → movieSatisfied (status t) = false := by
    intro t h0 hlt
    cases hst : status t with
    | none => simp [movieSatisfied]
    | some s =>
      have hsf := hbefore t (by omega) (by omega) s hst
      simp [movieSatisfied, hsf]
  have hrun := monitorLoop_first_satisfied_at status orig pollMaxRetries 60 hk
    (by decide) 60 0 (by decide) (by decide) hb
  simpa [monitorAvailability, pollMaxRetries] using hrun

/-- Witness for C4: placeholder status on ticks 1..59, a real file from tick
60 on. -/
theorem monitor_satisfied_tick60_witness :
    monitorAvailability
      (fun t => if 60 ≤ t then some ⟨true, some "Inception.2010.mkv"⟩
                else some ⟨false, some "dummy.mp4"⟩)
      "/media/Inception (2010)/dummy.mp4" =
      ⟨PollResult.Satisfied, 60, ["/media/Inception (2010)/dummy.mp4"]⟩ := by
  apply monitor_satisfied_tick60 _ _ ⟨true, some "Inception.2010.mkv"⟩
  · intro t h1 h2 s hs
    rw [if_neg (by omega)] at hs
    injection hs with hs
    rw [← hs]
  · rw [if_pos (by omega)]
  · rfl
  · simp

/-! ## Season-poller lemmas -/

/-- A season-mode run in which some episode is always pending ticks its full
fuel, times out, and issues one description update per tick — the final,
timed-out tick included — provided the fuel does not overrun the ceiling. -/
theorem seasonLoop_never_available (episodes : Nat → List EpisodeStatus)
    (maxR : Nat) (h : ∀ t, pendingCount (episodes t) ≠ 0) :
    ∀ fuel attempts, attempts + fuel ≤ maxR →
      seasonLoop episodes maxR attempts fuel =
        ⟨PollResult.TimedOut, attempts + fuel,
          (List.range fuel).map
            (fun i => waitingMessage (pendingCount (episodes (attempts + 1 + i))))⟩ := by
  intro fuel
  induction fuel with
  | zero =>
    intro attempts _
    simp [seasonLoop]
  | succ f ih =>
    intro attempts hle
    by_cases hm : maxR ≤ attempts + 1
    · have hf : f = 0 := by omega
      subst hf
      simp [seasonLoop, h, hm, List.range_succ]
    · rw [seasonLoop]
      simp only [h (attempts + 1), if_false, hm, ite_false]
      rw [ih (attempts + 1) (by omega)]
      have hmap : ∀ i : Nat, attempts + 1 + 1 + i = attempts + 1 + (i + 1) := by omega
      simp [List.range_succ_eq_map, List.map_map, Function.comp, hmap]
      omega

/-! ## C5 -/

/-- Claim C5: on any season-mode tick, if some episodes of the watched season
are unavailable (has-file false, or an episode file at the sentinel path),
the tick issues one description update carrying the pending count and the
loop keeps polling; if every episode has a real file, the tick ends in the
terminal satisfied state and issues no description update. -/
theorem season_tick_behavior (episodes : Nat → List EpisodeStatus)
    (maxR attempts fuel : Nat) :
    (pendingCount (episodes (attempts + 1)) = 0 →
      seasonLoop episodes maxR attempts (fuel + 1) =
        ⟨PollResult.Satisfied, attempts + 1, []⟩) ∧
    (pendingCount (episodes (attempts + 1)) ≠ 0 → attempts + 1 < maxR →
      seasonLoop episodes maxR attempts (fuel + 1) =
        ⟨(seasonLoop episodes maxR (attempts + 1) fuel).result,
         (seasonLoop episodes maxR (attempts + 1) fuel).ticks,
         waitingMessage (pendingCount (episodes (attempts + 1))) ::
           (seasonLoop episodes maxR (attempts + 1) fuel).descriptionUpdates⟩) := by
  constructor
  · intro h0
    simp [seasonLoop, h0]
  · intro hne hlt
    rw [seasonLoop]
    simp only [hne, if_false]
    rw [if_neg (by omega : ¬ maxR ≤ attempts + 1)]

/-- The season of the C5 witness: ten episodes, three of them still at the
placeholder sentinel. -/
def seasonThreePending : List EpisodeStatus :=
  [⟨true, some "dummy.mp4"⟩, ⟨true, some "e01.mkv"⟩, ⟨true, some "e02.mkv"⟩,
   ⟨true, some "dummy.mp4"⟩, ⟨true, some "e04.mkv"⟩, ⟨true, some "e05.mkv"⟩,
   ⟨true, some "e06.mkv"⟩, ⟨true, some "dummy.mp4"⟩, ⟨true, some "e08.mkv"⟩,
   ⟨true, some "e09.mkv"⟩]

/-- The season of the C5 witness after completion: all ten episodes real. -/
def seasonAllReal : List EpisodeStatus :=
  [⟨true, some "e00.mkv"⟩, ⟨true, some "e01.mkv"⟩, ⟨true, some "e02.mkv"⟩,
   ⟨true, some "e03.mkv"⟩, ⟨true, some "e04.mkv"⟩, ⟨true, some "e05.mkv"⟩,
   ⟨true, some "e06.mkv"⟩, ⟨true, some "e07.mkv"⟩, ⟨true, some "e08.mkv"⟩,
   ⟨true, some "e09.mkv"⟩]

/-- Witness for C5: with three of ten episodes pending the first tick's update
carries "3"; with all ten real the run satisfies on tick 1 with no update. -/
theorem season_tick_behavior_witness :
    (seasonLoop (fun _ => seasonThreePending) 60 0 60).descriptionUpdates.head? =
      some (waitingMessage 3) ∧
    seasonLoop (fun _ => seasonAllReal) 60 0 60 = ⟨PollResult.Satisfied, 1, []⟩ := by
  constructor
  · rw [(season_tick_behavior (fun _ => seasonThreePending) 60 0 59).2
      (by decide) (by decide)]
    decide
  · exact (season_tick_behavior (fun _ => seasonAllReal) 60 0 59).1 (by decide)

/-! ## C10 -/

/-- Claim C10: in season mode, a run whose episode listing always leaves some
episode pending issues a description update on every one of its 60 ticks —
one on the final, ceiling-reaching tick included — and then times out. -/
theorem season_timeout_sixty_updates (episodes : Nat → List EpisodeStatus)
    (h : ∀ t, pendingCount (episodes t) ≠ 0) :
    monitorSeasonAvailability episodes =
      ⟨PollResult.TimedOut, 60,
        (List.range 60).map (fun i => waitingMessage (pendingCount (episodes (i + 1))))⟩ ∧
    (monitorSeasonAvailability episodes).descriptionUpdates.length = 60 := by
  have hrun := seasonLoop_never_available episodes pollMaxRetries h 60 0 (by decide)
  have hmap : ∀ i : Nat, 0 + 1 + i = i + 1 := by omega
  rw [monitorSeasonAvailability]
  rw [show pollMaxRetries = 60 from rfl] at hrun ⊢
  simp only [hmap] at hrun
  refine ⟨by simpa using hrun, ?_⟩
  rw [hrun]
  simp

/-- Witness for C10: a single never-arriving episode; all 60 ticks update the
description and the run times out. -/
theorem season_timeout_sixty_updates_witness :
    monitorSeasonAvailability (fun _ => [⟨false, none⟩]) =
      ⟨PollResult.TimedOut, 60, List.replicate 60 (waitingMessage 1)⟩ ∧
    (monitorSeasonAvailability (fun _ => [⟨false, none⟩])).descriptionUpdates.length = 60 := by
  have hp : pendingCount [⟨false, none⟩] ≠ 0 := by decide
  have h := season_timeout_sixty_updates (fun _ => [⟨false, none⟩]) (fun _ => hp)
  refine ⟨?_, h.2⟩
  rw [h.1]
  decide
